import Mathlib

/-
  Verification development for the "awesome-app" task bulletin service
  (src/main.py): an in-memory task store, a websocket connection manager
  with broadcast fan-out, a REST handler `add_task` (POST /tasks) and a
  websocket frame loop `websocket_endpoint`.

  Shallow embedding conventions:
  * a websocket handle is abstracted as a natural number (`Conn`);
  * a task (a Python dict of strings) is an association list preserving
    insertion order, as CPython dicts do;
  * the effect of `await connection.send_text(msg)` is modelled by a
    failure predicate `fails : Conn → Bool` fixed for one broadcast pass:
    `fails c = true` means the send to `c` raises WebSocketDisconnect;
  * Python `str(dict)` (used by the f-strings `f"new_task:{task}"`) is
    modelled by `pyReprTask`, reproducing CPython repr for strings made
    of printable characters and the common escapes.
-/

/-- A websocket connection handle, abstracted as a natural number. -/
abbrev Conn := Nat

/-- A task: a string-keyed, string-valued record with insertion order,
modelling a Python `Dict[str, str]`. -/
abbrev TaskDict := List (String × String)

/-- The single-quote character, the default quote of Python string repr. -/
def squote : Char := Char.ofNat 39

/-- The double-quote character. -/
def dquote : Char := Char.ofNat 34

/-- Python `str.isspace` restricted to the ASCII range: space, tab,
newline, carriage return, vertical tab, form feed. -/
def pyIsSpace (c : Char) : Bool :=
  c = ' ' || c = '\t' || c = '\n' || c = '\r' || c = Char.ofNat 11 || c = Char.ofNat 12

/-- Python `str.strip()` with no argument: remove leading and trailing
whitespace. -/
def pyStrip (s : String) : String :=
  ⟨((s.data.dropWhile pyIsSpace).reverse.dropWhile pyIsSpace).reverse⟩

/-- Python `str.startswith(pre)`. -/
def pyStartswith (s pre : String) : Bool :=
  pre.data.isPrefixOf s.data

/-- Python slicing `s[n:]` (by characters, as Python indexes code points). -/
def pySliceFrom (s : String) (n : Nat) : String :=
  ⟨s.data.drop n⟩

/-- List-based string join with separator. -/
def joinSep (sep : String) : List String → String
  | [] => ""
  | [a] => a
  | a :: b :: rest => a ++ sep ++ joinSep sep (b :: rest)

/-- The quote CPython repr picks for a string: single quotes, unless the
string contains a single quote and no double quote. -/
def pyQuoteChar (s : String) : Char :=
  if s.data.contains squote && !(s.data.contains dquote) then dquote else squote

/-- CPython repr escaping of one character inside quotes `q`. -/
def pyEsc (q : Char) (c : Char) : String :=
  if c = '\\' then "\\\\"
  else if c = q then "\\" ++ String.singleton q
  else if c = '\n' then "\\n"
  else if c = '\r' then "\\r"
  else if c = '\t' then "\\t"
  else String.singleton c

/-- CPython `repr` of a `str` (printable characters and common escapes). -/
def pyReprStr (s : String) : String :=
  let q := pyQuoteChar s
  String.singleton q ++ joinSep "" (s.data.map (pyEsc q)) ++ String.singleton q

/-- CPython `str` of a `dict` of strings, e.g.
with single-quoted keys and values inside braces; this is what the
f-strings `f"new_task:\x7btask\x7d"` in src/main.py interpolate. -/
def pyReprTask (t : TaskDict) : String :=
  "\x7b" ++ joinSep ", " (t.map (fun kv => pyReprStr kv.1 ++ ": " ++ pyReprStr kv.2)) ++ "\x7d"

/-- `ConnectionManager.connect` (after the handshake): unconditionally
appends the websocket to `active_connections`. -/
def connect (conns : List Conn) (ws : Conn) : List Conn :=
  conns ++ [ws]

/-- `ConnectionManager.disconnect`: `if websocket in self.active_connections:
self.active_connections.remove(websocket)` — remove the first occurrence
when present, no-op when absent. -/
def disconnect (conns : List Conn) (ws : Conn) : List Conn :=
  if ws ∈ conns then conns.erase ws else conns

/-- Trace of one `ConnectionManager.broadcast` pass. -/
structure BroadcastResult where
  attempted : List Conn
  delivered : List (Conn × String)
  disconnected : List Conn
  deriving Repr, DecidableEq

/-- The `for connection in list(self.active_connections)` loop of
`ConnectionManager.broadcast`: attempt a send to every connection of the
snapshot in order; a send that raises WebSocketDisconnect is swallowed and
the connection is appended to the local `disconnected` list. -/
def broadcastLoop (fails : Conn → Bool) (msg : String) : List Conn → BroadcastResult
  | [] => ⟨[], [], []⟩
  | c :: rest =>
    let r := broadcastLoop fails msg rest
    if fails c then ⟨c :: r.attempted, r.delivered, c :: r.disconnected⟩
    else ⟨c :: r.attempted, (c, msg) :: r.delivered, r.disconnected⟩

/-- `ConnectionManager.broadcast`: run the send loop over a snapshot of the
registry, then (only after the full pass) call `disconnect` for each
connection collected in `disconnected`. Returns the trace and the new
registry. -/
def broadcast (fails : Conn → Bool) (msg : String) (conns : List Conn) :
    BroadcastResult × List Conn :=
  let r := broadcastLoop fails msg conns
  (r, r.disconnected.foldl disconnect conns)

/-- The process-wide mutable state: the task store `tasks` and the
manager field `active_connections`. -/
structure ServerState where
  tasks : List TaskDict
  conns : List Conn
  deriving Repr, DecidableEq

/-- Result of the `POST /tasks` handler. -/
structure PostResult where
  state : ServerState
  bres : BroadcastResult
  response : List (String × String)
  deriving Repr, DecidableEq

/-- The `add_task` handler (`POST /tasks`): append the task, broadcast
`"new_task:" ++ str(task)`, return `\x7b"status": "task_added"\x7d`. -/
def add_task (fails : Conn → Bool) (task : TaskDict) (s : ServerState) : PostResult :=
  let tasks1 := s.tasks ++ [task]
  let (r, conns1) := broadcast fails ("new_task:" ++ pyReprTask task) s.conns
  ⟨⟨tasks1, conns1⟩, r, [("status", "task_added")]⟩

/-- One iteration of the receive loop in `websocket_endpoint`, applied to
the received text frame `data`. Returns the new state and the trace of the
broadcast this frame triggered, if any. -/
def handleFrame (fails : Conn → Bool) (data : String) (s : ServerState) :
    ServerState × Option BroadcastResult :=
  if pyStartswith data "add_task:" then
    let content := pyStrip (pySliceFrom data "add_task:".data.length)
    if content ≠ "" then
      let task : TaskDict := [("id", toString s.tasks.length), ("content", content)]
      let (r, conns1) := broadcast fails ("new_task:" ++ pyReprTask task) s.conns
      (⟨s.tasks ++ [task], conns1⟩, some r)
    else (s, none)
  else
    let (r, conns1) := broadcast fails ("message:" ++ data) s.conns
    (⟨s.tasks, conns1⟩, some r)

/-- The `except WebSocketDisconnect` arm of `websocket_endpoint`:
unregister the websocket, then broadcast `"A client disconnected"` to the
remaining registry. -/
def handleDisconnect (fails : Conn → Bool) (ws : Conn) (s : ServerState) :
    ServerState × BroadcastResult :=
  let conns1 := disconnect s.conns ws
  let (r, conns2) := broadcast fails "A client disconnected" conns1
  (⟨s.tasks, conns2⟩, r)

/-- An externally observable operation on the shared state. -/
inductive Op where
  | post (task : TaskDict)
  | frame (data : String)
  | wsdisc (ws : Conn)
  | wsconnect (ws : Conn)
  deriving Repr, DecidableEq

/-- State transition of one operation (broadcast traces discarded). -/
def step (fails : Conn → Bool) (s : ServerState) : Op → ServerState
  | Op.post t => (add_task fails t s).state
  | Op.frame data => (handleFrame fails data s).1
  | Op.wsdisc ws => (handleDisconnect fails ws s).1
  | Op.wsconnect ws => ⟨s.tasks, connect s.conns ws⟩

/-- Run a sequence of operations. -/
def run (fails : Conn → Bool) (ops : List Op) (s : ServerState) : ServerState :=
  ops.foldl (step fails) s

/-- Whether an operation appends a task to the store: every `POST /tasks`,
and every websocket frame with the `add_task:` tag whose remainder is
non-empty after trimming. -/
def isCreating : Op → Bool
  | Op.post _ => true
  | Op.frame data =>
    if pyStartswith data "add_task:" then
      if pyStrip (pySliceFrom data "add_task:".data.length) ≠ "" then true else false
    else false
  | Op.wsdisc _ => false
  | Op.wsconnect _ => false

/-- The tasks a sequence of operations appends, given the store length at
the start (websocket-created tasks embed the current store size as `id`). -/
def created : List Op → Nat → List TaskDict
  | [], _ => []
  | Op.post t :: rest, len => t :: created rest (len + 1)
  | Op.frame data :: rest, len =>
    if pyStartswith data "add_task:" then
      if pyStrip (pySliceFrom data "add_task:".data.length) ≠ "" then
        [("id", toString len), ("content", pyStrip (pySliceFrom data "add_task:".data.length))] :: created rest (len + 1)
      else created rest len
    else created rest len
  | Op.wsdisc _ :: rest, len => created rest len
  | Op.wsconnect _ :: rest, len => created rest len

/-! ### Helper lemmas about the broadcast pass and the registry -/

/-- Every connection of the snapshot gets a send attempt, in snapshot
order, whatever the failures. -/
theorem broadcastLoop_attempted (fails : Conn → Bool) (msg : String) (conns : List Conn) :
    (broadcastLoop fails msg conns).attempted = conns := by
  induction conns with
  | nil => rfl
  | cons c rest ih =>
    simp only [broadcastLoop]
    split <;> simpa using ih

/-- The `disconnected` list collected by the loop is exactly the failing
part of the snapshot, in order. -/
theorem broadcastLoop_disconnected (fails : Conn → Bool) (msg : String) (conns : List Conn) :
    (broadcastLoop fails msg conns).disconnected = conns.filter fails := by
  induction conns with
  | nil => rfl
  | cons c rest ih =>
    simp only [broadcastLoop, List.filter_cons]
    rcases h : fails c <;> simp [h, ih]

/-- The messages delivered by the loop: every non-failing connection of
the snapshot receives `msg`, in order. -/
theorem broadcastLoop_delivered (fails : Conn → Bool) (msg : String) (conns : List Conn) :
    (broadcastLoop fails msg conns).delivered =
      (conns.filter (fun c => !fails c)).map (fun c => (c, msg)) := by
  induction conns with
  | nil => rfl
  | cons c rest ih =>
    simp only [broadcastLoop, List.filter_cons]
    rcases h : fails c <;> simp [h, ih]

/-- `disconnect` is first-occurrence erasure (the membership guard only
avoids the exception `list.remove` would raise on an absent element). -/
theorem disconnect_eq_erase (conns : List Conn) (ws : Conn) :
    disconnect conns ws = conns.erase ws := by
  rcases Decidable.em (ws ∈ conns) with h | h
  · simp [disconnect, h]
  · simp [disconnect, h, List.erase_of_not_mem h]

/-- Folding `disconnect` is folding ordinary erasure. -/
theorem foldl_disconnect_eq_foldl_erase (ds : List Conn) (l : List Conn) :
    ds.foldl disconnect l = ds.foldl List.erase l := by
  induction ds generalizing l with
  | nil => rfl
  | cons d ds ih => simp only [List.foldl_cons, disconnect_eq_erase, ih]

/-- Erasing each element of `ds` removes every occurrence of `c` from `l`
when `ds` carries at least as many copies of `c` as `l` does. -/
theorem count_foldl_erase_eq_zero (c : Conn) (ds : List Conn) (l : List Conn)
    (h : l.count c ≤ ds.count c) : ((ds.foldl List.erase l).count c) = 0 := by
  induction ds generalizing l with
  | nil => simpa using Nat.le_zero.mp h
  | cons d ds ih =>
    simp only [List.foldl_cons]
    apply ih
    rcases Decidable.em (d = c) with hdc | hdc
    · subst hdc
      rw [List.count_erase_self]
      simp only [List.count_cons_self] at h
      omega
    · rw [List.count_erase_of_ne (fun hc => hdc hc.symm)]
      rw [List.count_cons_of_ne (fun hc => hdc hc.symm)] at h
      exact h

/-- Erasing elements different from `c` leaves the count of `c` alone. -/
theorem count_foldl_erase_of_not_mem (c : Conn) (ds : List Conn) (l : List Conn)
    (h : c ∉ ds) : ((ds.foldl List.erase l).count c) = l.count c := by
  induction ds generalizing l with
  | nil => rfl
  | cons d ds ih =>
    simp only [List.foldl_cons]
    have hdc : c ≠ d := fun hc => h (hc ▸ List.mem_cons_self d ds)
    rw [ih (l.erase d) (fun hc => h (List.mem_cons_of_mem d hc)), List.count_erase_of_ne hdc]

/-- The registry after a broadcast pass: the failing members of the snapshot,
erased one occurrence at a time, after the pass. -/
theorem broadcast_conns_eq (fails : Conn → Bool) (msg : String) (conns : List Conn) :
    (broadcast fails msg conns).2 = (conns.filter fails).foldl List.erase conns := by
  simp only [broadcast, broadcastLoop_disconnected, foldl_disconnect_eq_foldl_erase]

/-- A failure-free pass: everyone receives the message and the registry is
untouched. -/
theorem broadcastLoop_ok (fails : Conn → Bool) (msg : String) (conns : List Conn)
    (hok : ∀ c ∈ conns, fails c = false) :
    broadcastLoop fails msg conns = ⟨conns, conns.map (fun c => (c, msg)), []⟩ := by
  induction conns with
  | nil => rfl
  | cons c rest ih =>
    have hc : fails c = false := hok c (List.mem_cons_self c rest)
    simp only [broadcastLoop, hc]
    simp [ih (fun d hd => hok d (List.mem_cons_of_mem c hd))]

/-- A failure-free pass leaves the registry unchanged. -/
theorem broadcast_ok_conns (fails : Conn → Bool) (msg : String) (conns : List Conn)
    (hok : ∀ c ∈ conns, fails c = false) :
    (broadcast fails msg conns).2 = conns := by
  simp only [broadcast, broadcastLoop_ok fails msg conns hok, List.foldl_nil]

/-! ### Claim theorems -/

/-- C1: for every task mapping submitted to `POST /tasks`, the handler
appends that exact task to the task store, broadcasts the single string
`"new_task:"` followed by the string representation of the task to every
currently registered connection (stated for a pass whose sends all
succeed), and returns the response `\x7b"status": "task_added"\x7d`. -/
theorem post_tasks_spec (fails : Conn → Bool) (task : TaskDict) (s : ServerState)
    (hok : ∀ c ∈ s.conns, fails c = false) :
    (add_task fails task s).state.tasks = s.tasks ++ [task] ∧
    (add_task fails task s).bres.delivered =
      s.conns.map (fun c => (c, "new_task:" ++ pyReprTask task)) ∧
    (add_task fails task s).state.conns = s.conns ∧
    (add_task fails task s).response = [("status", "task_added")] := by
  refine ⟨rfl, ?_, ?_, rfl⟩
  · show (broadcastLoop fails ("new_task:" ++ pyReprTask task) s.conns).delivered = _
    rw [broadcastLoop_ok _ _ _ hok]
  · show (broadcast fails ("new_task:" ++ pyReprTask task) s.conns).2 = s.conns
    exact broadcast_ok_conns _ _ _ hok

/-- Witness for `post_tasks_spec`: one registered connection, empty store. -/
theorem post_tasks_spec_witness :
    (∀ c ∈ ([5] : List Conn), (fun _ : Conn => false) c = false) ∧
    (add_task (fun _ => false) [("id", "1")] ⟨[], [5]⟩).state.tasks = [[("id", "1")]] ∧
    (add_task (fun _ => false) [("id", "1")] ⟨[], [5]⟩).bres.delivered =
      [(5, "new_task:" ++ pyReprTask [("id", "1")])] ∧
    (add_task (fun _ => false) [("id", "1")] ⟨[], [5]⟩).response = [("status", "task_added")] := by
  have h := post_tasks_spec (fun _ => false) [("id", "1")] ⟨[], [5]⟩ (by decide)
  exact ⟨by decide, h.1, h.2.1, h.2.2.2⟩

/-- C7: a websocket frame starting with `add_task:` whose remainder is
empty after trimming (including the frame that is exactly `add_task:`)
leaves the state untouched and triggers no broadcast and no error. -/
theorem ws_blank_add_task_spec (fails : Conn → Bool) (data : String) (s : ServerState)
    (hpre : pyStartswith data "add_task:" = true)
    (hempty : pyStrip (pySliceFrom data "add_task:".data.length) = "") :
    handleFrame fails data s = (s, none) := by
  simp at hempty
  simp [handleFrame, hpre, hempty]

/-- Witness for `ws_blank_add_task_spec`: the frame `add_task:` followed
only by whitespace, with a non-trivial store and registry. -/
theorem ws_blank_add_task_spec_witness :
    pyStartswith "add_task:   " "add_task:" = true ∧
    pyStrip (pySliceFrom "add_task:   " "add_task:".data.length) = "" ∧
    handleFrame (fun c => c == 2) "add_task:   " ⟨[[("id", "0")]], [1, 2]⟩ =
      (⟨[[("id", "0")]], [1, 2]⟩, none) :=
  ⟨by decide, by decide,
   ws_blank_add_task_spec (fun c => c == 2) "add_task:   " ⟨[[("id", "0")]], [1, 2]⟩
     (by decide) (by decide)⟩

/-- C9: `disconnect` removes a present connection (its count drops by one
and the registry shrinks by one; if it was registered at most once it is
no longer a member) and is a no-op on an absent connection, raising no
error. -/
theorem disconnect_noop_spec (conns : List Conn) (ws : Conn) :
    (ws ∈ conns → (disconnect conns ws).count ws + 1 = conns.count ws ∧
                  (disconnect conns ws).length + 1 = conns.length) ∧
    (ws ∉ conns → disconnect conns ws = conns) ∧
    (conns.count ws ≤ 1 → ws ∉ disconnect conns ws) := by
  refine ⟨fun hmem => ⟨?_, ?_⟩, fun hnm => by simp [disconnect, hnm], fun hc => ?_⟩
  · rw [disconnect_eq_erase, List.count_erase_self]
    have hpos := List.count_pos_iff.mpr hmem
    omega
  · rw [disconnect_eq_erase, List.length_erase_of_mem hmem]
    have hpos := List.length_pos_of_mem hmem
    omega
  · rw [disconnect_eq_erase]
    have h := List.count_erase_self ws conns
    exact List.count_eq_zero.mp (by omega)

/-- Witness for `disconnect_noop_spec`: removal from `[4, 5]` and no-op on
`[5]`. -/
theorem disconnect_noop_spec_witness :
    (disconnect [4, 5] 4).length + 1 = 2 ∧
    disconnect [5] 4 = [5] ∧
    (4 : Conn) ∉ disconnect [4, 5] 4 := by
  have h := disconnect_noop_spec [4, 5] 4
  have h2 := disconnect_noop_spec [5] 4
  exact ⟨(h.1 (by decide)).2, h2.2.1 (by decide), h.2.2 (by decide)⟩

/-- C10: the registry is an ordered list, not a set: `connect` appends
unconditionally (a doubly-registered handle has two occurrences),
`disconnect` removes at most one occurrence per call (a doubly-registered
handle survives one `disconnect`), and a broadcast pass walks the registry
in registration order. -/
theorem registry_list_spec (conns : List Conn) (ws : Conn) (fails : Conn → Bool) (msg : String) :
    (connect conns ws).count ws = conns.count ws + 1 ∧
    (connect (connect conns ws) ws).count ws = conns.count ws + 2 ∧
    ws ∈ disconnect (connect (connect conns ws) ws) ws ∧
    (∀ c : Conn, conns.count c ≤ (disconnect conns ws).count c + 1) ∧
    (broadcast fails msg conns).1.attempted = conns := by
  have h1 : (connect conns ws).count ws = conns.count ws + 1 := by
    simp [connect]
  have h2 : (connect (connect conns ws) ws).count ws = conns.count ws + 2 := by
    simp [connect]
  refine ⟨h1, h2, ?_, fun c => ?_, ?_⟩
  · rw [disconnect_eq_erase]
    apply List.count_pos_iff.mp
    rw [List.count_erase_self, h2]
    omega
  · rw [disconnect_eq_erase]
    rcases Decidable.em (c = ws) with hcw | hcw
    · subst hcw
      rw [List.count_erase_self]
      omega
    · rw [List.count_erase_of_ne hcw]
      omega
  · show (broadcastLoop fails msg conns).attempted = conns
    exact broadcastLoop_attempted fails msg conns

/-- Witness for `registry_list_spec`: double registration of `7` over
`[3]`, one disconnect, and a two-member broadcast pass. -/
theorem registry_list_spec_witness :
    (connect (connect [3] 7) 7).count 7 = 2 ∧
    (7 : Conn) ∈ disconnect (connect (connect [3] 7) 7) 7 ∧
    (broadcast (fun _ => false) "m" [3, 7]).1.attempted = [3, 7] := by
  have h := registry_list_spec [3] 7 (fun _ => false) "m"
  have h2 := registry_list_spec [3, 7] 7 (fun _ => false) "m"
  exact ⟨h.2.1, h.2.2.1, h2.2.2.2.2⟩

/-- C2: a websocket frame starting with `add_task:` whose remainder is
non-empty after trimming appends the task with `id` the decimal string of
the store size before insertion and `content` the trimmed remainder, and
broadcasts `"new_task:"` plus the string representation of that task to all
connections, the sender included (stated for a pass whose sends all
succeed). -/
theorem ws_add_task_spec (fails : Conn → Bool) (data : String) (s : ServerState) (ws : Conn)
    (hpre : pyStartswith data "add_task:" = true)
    (hne : pyStrip (pySliceFrom data "add_task:".data.length) ≠ "")
    (hok : ∀ c ∈ s.conns, fails c = false)
    (hws : ws ∈ s.conns) :
    (handleFrame fails data s).1.tasks =
      s.tasks ++ [[("id", toString s.tasks.length),
                   ("content", pyStrip (pySliceFrom data "add_task:".data.length))]] ∧
    (handleFrame fails data s).2 =
      some ⟨s.conns,
            s.conns.map (fun c => (c, "new_task:" ++ pyReprTask
                [("id", toString s.tasks.length),
                 ("content", pyStrip (pySliceFrom data "add_task:".data.length))])), []⟩ ∧
    (ws, "new_task:" ++ pyReprTask
        [("id", toString s.tasks.length),
         ("content", pyStrip (pySliceFrom data "add_task:".data.length))]) ∈
      s.conns.map (fun c => (c, "new_task:" ++ pyReprTask
        [("id", toString s.tasks.length),
         ("content", pyStrip (pySliceFrom data "add_task:".data.length))])) ∧
    (handleFrame fails data s).1.conns = s.conns := by
  simp only [handleFrame]
  rw [if_pos hpre, if_pos hne]
  refine ⟨rfl, ?_, List.mem_map_of_mem _ hws, ?_⟩
  · show some (broadcastLoop fails _ s.conns) = _
    rw [broadcastLoop_ok _ _ _ hok]
  · show (broadcast fails _ s.conns).2 = s.conns
    exact broadcast_ok_conns _ _ _ hok

/-- Witness for `ws_add_task_spec`: the frame `add_task:  write report  `
against an empty store with connections `[1, 2]`, sender `2`. -/
theorem ws_add_task_spec_witness :
    pyStrip (pySliceFrom "add_task:  write report  " "add_task:".data.length) = "write report" ∧
    (handleFrame (fun _ => false) "add_task:  write report  " ⟨[], [1, 2]⟩).1.tasks =
      [[("id", "0"), ("content", "write report")]] ∧
    ((2 : Conn), "new_task:" ++ pyReprTask [("id", "0"), ("content", "write report")]) ∈
      ([1, 2] : List Conn).map (fun c => (c, "new_task:" ++ pyReprTask
        [("id", toString (List.length ([] : List TaskDict))),
         ("content", pyStrip (pySliceFrom "add_task:  write report  " "add_task:".data.length))])) := by
  have h := ws_add_task_spec (fun _ => false) "add_task:  write report  " ⟨[], [1, 2]⟩ 2
    (by decide) (by decide) (by decide) (by decide)
  exact ⟨by decide, h.1, h.2.2.1⟩

/-- C5: on disconnect the handler removes the connection from the registry
and then broadcasts `"A client disconnected"` over the post-removal
registry, so a singly-registered connection is not among the recipients;
the task store is untouched (stated for a pass whose sends all succeed). -/
theorem ws_disconnect_spec (fails : Conn → Bool) (ws : Conn) (s : ServerState)
    (hcount : s.conns.count ws ≤ 1)
    (hok : ∀ c ∈ disconnect s.conns ws, fails c = false) :
    ws ∉ disconnect s.conns ws ∧
    (handleDisconnect fails ws s).2 =
      ⟨disconnect s.conns ws,
       (disconnect s.conns ws).map (fun c => (c, "A client disconnected")), []⟩ ∧
    (handleDisconnect fails ws s).1.conns = disconnect s.conns ws ∧
    (handleDisconnect fails ws s).1.tasks = s.tasks := by
  have hnot : ws ∉ disconnect s.conns ws := by
    rw [disconnect_eq_erase]
    have h := List.count_erase_self ws s.conns
    exact List.count_eq_zero.mp (by omega)
  refine ⟨hnot, ?_, ?_, rfl⟩
  · show broadcastLoop fails "A client disconnected" (disconnect s.conns ws) = _
    rw [broadcastLoop_ok _ _ _ hok]
  · show (broadcast fails "A client disconnected" (disconnect s.conns ws)).2 = _
    exact broadcast_ok_conns _ _ _ hok

/-- Witness for `ws_disconnect_spec`: connection `7` leaves `[7, 8]`. -/
theorem ws_disconnect_spec_witness :
    (7 : Conn) ∉ disconnect [7, 8] 7 ∧
    (handleDisconnect (fun _ => false) 7 ⟨[], [7, 8]⟩).2 =
      ⟨[8], [(8, "A client disconnected")], []⟩ ∧
    (handleDisconnect (fun _ => false) 7 ⟨[], [7, 8]⟩).1.conns = [8] := by
  have h := ws_disconnect_spec (fun _ => false) 7 ⟨[], [7, 8]⟩ (by decide) (by decide)
  exact ⟨h.1, h.2.1, h.2.2.1⟩

/-- C6: a websocket frame not starting with `add_task:` is echoed as
`"message:"` plus the raw frame text to all connections, the sender
included, and the task store is unchanged (stated for a pass whose sends
all succeed). -/
theorem ws_message_spec (fails : Conn → Bool) (data : String) (s : ServerState) (ws : Conn)
    (hpre : pyStartswith data "add_task:" = false)
    (hok : ∀ c ∈ s.conns, fails c = false)
    (hws : ws ∈ s.conns) :
    (handleFrame fails data s).1.tasks = s.tasks ∧
    (handleFrame fails data s).2 =
      some ⟨s.conns, s.conns.map (fun c => (c, "message:" ++ data)), []⟩ ∧
    (ws, "message:" ++ data) ∈ s.conns.map (fun c => (c, "message:" ++ data)) ∧
    (handleFrame fails data s).1.conns = s.conns := by
  simp only [handleFrame]
  rw [if_neg (by simp [hpre])]
  refine ⟨rfl, ?_, List.mem_map_of_mem _ hws, ?_⟩
  · show some (broadcastLoop fails ("message:" ++ data) s.conns) = _
    rw [broadcastLoop_ok _ _ _ hok]
  · show (broadcast fails ("message:" ++ data) s.conns).2 = s.conns
    exact broadcast_ok_conns _ _ _ hok

/-- Witness for `ws_message_spec`: the frame `hello everyone` with
connections `[1, 2]`, sender `1`. -/
theorem ws_message_spec_witness :
    (handleFrame (fun _ => false) "hello everyone" ⟨[[("id", "0")]], [1, 2]⟩).1.tasks =
      [[("id", "0")]] ∧
    (handleFrame (fun _ => false) "hello everyone" ⟨[[("id", "0")]], [1, 2]⟩).2 =
      some ⟨[1, 2], [(1, "message:hello everyone"), (2, "message:hello everyone")], []⟩ ∧
    ((1 : Conn), "message:" ++ "hello everyone") ∈
      ([1, 2] : List Conn).map (fun c => (c, "message:" ++ "hello everyone")) := by
  have h := ws_message_spec (fun _ => false) "hello everyone" ⟨[[("id", "0")]], [1, 2]⟩ 1
    (by decide) (by decide) (by decide)
  exact ⟨h.1, h.2.1, h.2.2.1⟩

/-- C3: a connection whose send fails during a broadcast pass has the
failure swallowed (the pass still delivers to every other non-failing
connection), is removed from the registry by the end of the pass, and is
absent from the attempt list of every later broadcast run over the
resulting registry. -/
theorem broadcast_failed_conn_spec (fails : Conn → Bool) (msg : String)
    (conns : List Conn) (c : Conn)
    (_hc : c ∈ conns) (hf : fails c = true) :
    c ∉ (broadcast fails msg conns).2 ∧
    (∀ d ∈ conns, fails d = false → (d, msg) ∈ (broadcast fails msg conns).1.delivered) ∧
    (∀ g : Conn → Bool, ∀ m : String,
      c ∉ (broadcast g m (broadcast fails msg conns).2).1.attempted) := by
  have hzero : ((broadcast fails msg conns).2).count c = 0 := by
    rw [broadcast_conns_eq]
    apply count_foldl_erase_eq_zero
    rw [List.count_filter hf]
  have hnot : c ∉ (broadcast fails msg conns).2 := List.count_eq_zero.mp hzero
  refine ⟨hnot, fun d hd hdf => ?_, fun g m => ?_⟩
  · show (d, msg) ∈ (broadcastLoop fails msg conns).delivered
    rw [broadcastLoop_delivered]
    exact List.mem_map_of_mem _ (List.mem_filter.mpr ⟨hd, by simp [hdf]⟩)
  · show c ∉ (broadcastLoop g m (broadcast fails msg conns).2).attempted
    rw [broadcastLoop_attempted]
    exact hnot

/-- Witness for `broadcast_failed_conn_spec`: connection `2` fails among
`[1, 2, 3]`; `1` and `3` still receive the message and `2` is gone. -/
theorem broadcast_failed_conn_spec_witness :
    (2 : Conn) ∉ (broadcast (fun c => c == 2) "m" [1, 2, 3]).2 ∧
    ((1 : Conn), "m") ∈ (broadcast (fun c => c == 2) "m" [1, 2, 3]).1.delivered ∧
    ((3 : Conn), "m") ∈ (broadcast (fun c => c == 2) "m" [1, 2, 3]).1.delivered ∧
    (2 : Conn) ∉ (broadcast (fun _ => false) "n" (broadcast (fun c => c == 2) "m" [1, 2, 3]).2).1.attempted := by
  have h := broadcast_failed_conn_spec (fun c => c == 2) "m" [1, 2, 3] 2 (by decide) (by decide)
  exact ⟨h.1, h.2.1 1 (by decide) (by decide), h.2.1 3 (by decide) (by decide),
         h.2.2 (fun _ => false) "n"⟩

/-- C4: within one broadcast pass a send is attempted to every connection
of the snapshot, in order, regardless of earlier failures; the failing
connections are only collected during the pass (the `disconnected` list is
exactly the failing part of the snapshot) and unregistration happens after
the pass, leaving the membership count of each non-failing connection intact
and every failing member removed. -/
theorem broadcast_single_pass_spec (fails : Conn → Bool) (msg : String) (conns : List Conn) :
    (broadcast fails msg conns).1.attempted = conns ∧
    (broadcast fails msg conns).1.disconnected = conns.filter fails ∧
    (∀ d : Conn, fails d = false → ((broadcast fails msg conns).2).count d = conns.count d) ∧
    (∀ d ∈ conns, fails d = true → d ∉ (broadcast fails msg conns).2) := by
  refine ⟨broadcastLoop_attempted fails msg conns, broadcastLoop_disconnected fails msg conns,
    fun d hdf => ?_, fun d hd hdf => ?_⟩
  · rw [broadcast_conns_eq]
    apply count_foldl_erase_of_not_mem
    intro hmem
    have := (List.mem_filter.mp hmem).2
    rw [hdf] at this
    exact Bool.false_ne_true this
  · apply List.count_eq_zero.mp
    rw [broadcast_conns_eq]
    apply count_foldl_erase_eq_zero
    rw [List.count_filter hdf]

/-- Witness for `broadcast_single_pass_spec`: among `[1, 2, 3]` with `2`
failing, all three are attempted, `2` alone is collected and removed, and
`1` keeps its single registration. -/
theorem broadcast_single_pass_spec_witness :
    (broadcast (fun c => c == 2) "m" [1, 2, 3]).1.attempted = [1, 2, 3] ∧
    (broadcast (fun c => c == 2) "m" [1, 2, 3]).1.disconnected = [2] ∧
    ((broadcast (fun c => c == 2) "m" [1, 2, 3]).2).count 1 = 1 ∧
    (2 : Conn) ∉ (broadcast (fun c => c == 2) "m" [1, 2, 3]).2 := by
  have h := broadcast_single_pass_spec (fun c => c == 2) "m" [1, 2, 3]
  refine ⟨h.1, ?_, ?_, h.2.2.2 2 (by decide) (by decide)⟩
  · rw [h.2.1]; decide
  · have h1 := h.2.2.1 1 (by decide)
    rw [h1]; decide

/-- The store after a run of operations: the original contents followed by
the created tasks, in call order. -/
theorem run_tasks_eq (fails : Conn → Bool) (ops : List Op) :
    ∀ s : ServerState, (run fails ops s).tasks = s.tasks ++ created ops s.tasks.length := by
  induction ops with
  | nil => intro s; simp [run, created]
  | cons op rest ih =>
    intro s
    rcases op with t | data | ws | ws
    · have hs1 : (step fails s (Op.post t)).tasks = s.tasks ++ [t] := rfl
      have h := ih (step fails s (Op.post t))
      simp only [run, List.foldl_cons] at h ⊢
      rw [h, hs1]
      simp only [created]
      simp [List.append_assoc]
    · simp only [run, List.foldl_cons]
      have h := ih (step fails s (Op.frame data))
      simp only [run] at h
      by_cases hne0 : pyStartswith data "add_task:" = true
      · by_cases hne : pyStrip (pySliceFrom data "add_task:".data.length) = ""
        · have hs1 : (step fails s (Op.frame data)).tasks = s.tasks := by
            simp only [step, handleFrame]
            rw [if_pos hne0, if_neg (fun hx => hx hne)]
          rw [h, hs1]
          simp only [created]
          rw [if_pos hne0, if_neg (fun hx => hx hne)]
        · have hs1 : (step fails s (Op.frame data)).tasks
              = s.tasks ++ [[("id", toString s.tasks.length),
                             ("content", pyStrip (pySliceFrom data "add_task:".data.length))]] := by
            simp only [step, handleFrame]
            rw [if_pos hne0, if_pos hne]
          rw [h, hs1]
          simp only [created]
          rw [if_pos hne0, if_pos hne]
          simp [List.append_assoc]
      · have hs1 : (step fails s (Op.frame data)).tasks = s.tasks := by
          simp only [step, handleFrame]
          rw [if_neg hne0]
        rw [h, hs1]
        simp only [created]
        rw [if_neg hne0]
    · have hs1 : (step fails s (Op.wsdisc ws)).tasks = s.tasks := rfl
      have h := ih (step fails s (Op.wsdisc ws))
      simp only [run, List.foldl_cons] at h ⊢
      rw [h, hs1]
      simp only [created]
    · have hs1 : (step fails s (Op.wsconnect ws)).tasks = s.tasks := rfl
      have h := ih (step fails s (Op.wsconnect ws))
      simp only [run, List.foldl_cons] at h ⊢
      rw [h, hs1]
      simp only [created]

/-- How many tasks a sequence of operations creates does not depend on the
starting store length: it is the number of task-creating operations. -/
theorem created_length (ops : List Op) :
    ∀ len : Nat, (created ops len).length = ops.countP isCreating := by
  induction ops with
  | nil => intro len; rfl
  | cons op rest ih =>
    intro len
    rcases op with t | data | ws | ws
    · simp [created, List.countP_cons, isCreating, ih]
    · by_cases hne0 : pyStartswith data "add_task:" = true
      · by_cases hne : pyStrip (pySliceFrom data "add_task:".data.length) = ""
        · have hcr : isCreating (Op.frame data) = false := by
            simp only [isCreating]
            rw [if_pos hne0, if_neg (fun hx => hx hne)]
          simp only [created]
          rw [if_pos hne0, if_neg (fun hx => hx hne)]
          simp [List.countP_cons, hcr, ih]
        · have hcr : isCreating (Op.frame data) = true := by
            simp only [isCreating]
            rw [if_pos hne0, if_pos hne]
          simp only [created]
          rw [if_pos hne0, if_pos hne]
          simp [List.countP_cons, hcr, ih]
      · have hcr : isCreating (Op.frame data) = false := by
          simp only [isCreating]
          rw [if_neg hne0]
        simp only [created]
        rw [if_neg hne0]
        simp [List.countP_cons, hcr, ih]
    · simp [created, List.countP_cons, isCreating, ih]
    · simp [created, List.countP_cons, isCreating, ih]

/-- C8: any mix of `POST /tasks` calls and websocket frames, disconnects
and registrations only appends to the task store: afterwards the store is
its original contents followed by the created tasks in call order, and its
length grew by exactly the number of task-creating calls. -/
theorem store_append_only_spec (fails : Conn → Bool) (ops : List Op) (s : ServerState) :
    (run fails ops s).tasks = s.tasks ++ created ops s.tasks.length ∧
    (run fails ops s).tasks.length = s.tasks.length + ops.countP isCreating := by
  refine ⟨run_tasks_eq fails ops s, ?_⟩
  rw [run_tasks_eq fails ops s]
  simp [created_length]

/-- Witness for `store_append_only_spec`: a POST, a creating frame, a chat
frame, a disconnect and a registration over a store of one prior task. -/
theorem store_append_only_spec_witness :
    (run (fun _ => false)
        [Op.post [("name", "buy milk")], Op.frame "add_task: write report",
         Op.frame "hello", Op.wsdisc 1, Op.wsconnect 2]
        ⟨[[("id", "0")]], [1]⟩).tasks =
      [[("id", "0")], [("name", "buy milk")], [("id", "2"), ("content", "write report")]] ∧
    (run (fun _ => false)
        [Op.post [("name", "buy milk")], Op.frame "add_task: write report",
         Op.frame "hello", Op.wsdisc 1, Op.wsconnect 2]
        ⟨[[("id", "0")]], [1]⟩).tasks.length = 3 := by
  have h := store_append_only_spec (fun _ => false)
    [Op.post [("name", "buy milk")], Op.frame "add_task: write report",
     Op.frame "hello", Op.wsdisc 1, Op.wsconnect 2]
    ⟨[[("id", "0")]], [1]⟩
  constructor
  · rw [h.1]
    decide
  · rw [h.2]
    decide
